import Mathlib

/-!
Verification of the sign-language-letters stream-to-decision pipeline.

The definitions below are a shallow embedding of the two source artefacts
that hold the core logic:

* the browser client (StabilityGate `l2`, Scheduler tick, `sendPayload`,
  AcceptanceGate `handlePrediction`, TextBuffer `appendLetter`), and
* the Python landmark-extraction function `one_image_to_vector`
  (FeatureNormalizer).

JavaScript / numpy numbers are modelled as exact rationals (every finite
IEEE double is a rational); square roots land in `ℝ`, and the JavaScript
value `Infinity` returned by `l2` is modelled by `⊤ : EReal`.  A second
copy of the normalizer (`W`-suffixed) models IEEE non-finite values by an
absorbing `none`, and is used for the claims about non-finite inputs.
-/

namespace SignLang

/-! ### Constants from the client (`hands-client.js`) -/

/-- `const THRESHOLD = 0.01` — mean L2 distance threshold. -/
def THRESHOLD : ℚ := 1 / 100

/-- `const CONF_THRESHOLD = 0.75` — minimal confidence to accept. -/
def CONF_THRESHOLD : ℚ := 3 / 4

/-- `const DEBOUNCE_MS = 2000` — duplicate-suppression window in ms. -/
def DEBOUNCE_MS : ℤ := 2000

/-! ### StabilityGate: the `l2` helper and the tick submission test -/

/-- The accumulated sum of squared component differences computed by the
loop body of `l2` (`d = a[i] - b[i]; sum += d * d`). -/
def sumSqDiff (a b : List ℚ) : ℚ :=
  ((a.zip b).map (fun p => (p.1 - p.2) ^ 2)).sum

/-- `l2(a, b)`: `Infinity` when either argument is null or the lengths
differ, otherwise `Math.sqrt(sum / a.length)`.  `Infinity` is `⊤`. -/
noncomputable def l2 (a b : Option (List ℚ)) : EReal :=
  match a, b with
  | some a, some b =>
      if a.length = b.length then
        (((Real.sqrt ((sumSqDiff a b : ℝ) / (a.length : ℝ))) : ℝ) : EReal)
      else ⊤
  | _, _ => ⊤

/-- Decidable form of the tick's submission test `l2(a, b) > θ`, obtained
by squaring the comparison; `submitB_eq_true_iff` proves it equivalent to
the source comparison on the real-valued `l2`. -/
def submitB (θ : ℚ) (a b : Option (List ℚ)) : Bool :=
  match a, b with
  | some a, some b =>
      if a.length = b.length then
        decide (θ * θ * a.length < sumSqDiff a b)
      else true
  | _, _ => true

/-! ### AcceptanceGate: `handlePrediction` -/

/-- The acceptance state: `lastAccepted` (initially `null`) and
`lastAcceptTime` (initially `0`). -/
structure AccState where
  lastAccepted : Option String
  lastAcceptTime : ℤ
  deriving DecidableEq, Repr

/-- The decision taken by `handlePrediction` for one classifier result:
either the letter is committed (appended), or it is dropped because of
low confidence / falsy label, or dropped as a debounced duplicate. -/
inductive Decision where
  | commit (label : String)
  | rejectLowConfidence
  | rejectDuplicate
  deriving DecidableEq, Repr

/-- `handlePrediction(prediction, confidence)` as a pure function of the
acceptance state and the current time `now = Date.now()`.  The source
tests `confidence >= CONF_THRESHOLD && prediction` (a string is truthy
iff non-empty) and commits when
`prediction !== lastAccepted || now - lastAcceptTime > DEBOUNCE_MS`
(`lastAccepted` may be `null`, which differs from every string). -/
def handlePrediction (prediction : String) (confidence : ℚ) (st : AccState)
    (now : ℤ) : Decision × AccState :=
  if CONF_THRESHOLD ≤ confidence ∧ prediction ≠ "" then
    if some prediction ≠ st.lastAccepted ∨ now - st.lastAcceptTime > DEBOUNCE_MS then
      (Decision.commit prediction, ⟨some prediction, now⟩)
    else
      (Decision.rejectDuplicate, st)
  else
    (Decision.rejectLowConfidence, st)

/-! ### TextBuffer: `appendLetter` -/

/-- `appendLetter(letter)` acting on the typed buffer (a character list):
`'space'` appends one space, `'del'` drops the last character
(`slice(0, -1)`, a no-op on the empty string), anything else is appended
verbatim. -/
def appendLetter (buf : List Char) (letter : String) : List Char :=
  if letter = "space" then buf ++ [' ']
  else if letter = "del" then buf.dropLast
  else buf ++ letter.toList

/-- Modelled from the spec: the closed 28-symbol label alphabet of the
data model (26 letters plus the control symbols `space` and `del`).  The
client source never materialises this set; it is needed only to state the
spec's "label unknown" clause. -/
def alphabet : List String :=
  ["A", "B", "C", "D", "E", "F", "G", "H", "I", "J", "K", "L", "M",
   "N", "O", "P", "Q", "R", "S", "T", "U", "V", "W", "X", "Y", "Z",
   "space", "del"]

/-! ### FeatureNormalizer: `one_image_to_vector` (exact-rational model)

The numeric part of the Python function, for poses whose coordinates are
all finite.  A pose is a list of 21 `(x, y, z)` triples. -/

/-- A 3-D landmark point. -/
abbrev T3 := ℚ × ℚ × ℚ

/-- Componentwise subtraction of two points. -/
def subT (p q : T3) : T3 := (p.1 - q.1, p.2.1 - q.2.1, p.2.2 - q.2.2)

/-- `lm -= lm[0]`: centre every point on the wrist (point 0). -/
def centerWrist (lm : List T3) : List T3 :=
  lm.map (fun p => subT p lm.headI)

/-- Maximum of a coordinate list (`np.max` along one axis; the lists in
use are the 21 coordinates of one axis, hence non-empty). -/
def listMax (l : List ℚ) : ℚ := l.foldl max l.headI

/-- Minimum of a coordinate list. -/
def listMin (l : List ℚ) : ℚ := l.foldl min l.headI

/-- `np.ptp`: peak-to-peak (max − min) of one axis of coordinates. -/
def ptp (l : List ℚ) : ℚ := listMax l - listMin l

/-- `np.max(np.ptp(lm, axis=0))`: the largest per-axis peak-to-peak range
of the centred landmarks. -/
def maxPtp (lm : List T3) : ℚ :=
  max (ptp (lm.map (fun p => p.1)))
    (max (ptp (lm.map (fun p => p.2.1))) (ptp (lm.map (fun p => p.2.2))))

/-- `scale = np.max(np.ptp(lm, axis=0)) or 1.0`: the Python `or`
replaces a zero (falsy) scale by `1.0`. -/
def scaleOf (lm : List T3) : ℚ :=
  let m := maxPtp (centerWrist lm)
  if m = 0 then 1 else m

/-- The centred landmarks divided by the scale (`lm /= scale`). -/
def normalizeLm (lm : List T3) : List T3 :=
  let s := scaleOf lm
  (centerWrist lm).map (fun p => (p.1 / s, p.2.1 / s, p.2.2 / s))

/-- `.flatten()` of a list of points, point-index then axis order. -/
def flat3 (l : List T3) : List ℚ :=
  l.flatMap (fun p => [p.1, p.2.1, p.2.2])

/-- `vec60 = lm[1:].flatten()`: drop the wrist, flatten the 20 remaining
normalized points. -/
def vec60 (lm : List T3) : List ℚ :=
  flat3 ((normalizeLm lm).drop 1)

/-- `tip_ids = [4, 8, 12, 16, 20]` — thumb, index, middle, ring, pinky. -/
def tip_ids : List ℕ := [4, 8, 12, 16, 20]

/-- `np.linalg.norm` of one (already normalized) point. -/
noncomputable def normT3 (p : T3) : ℝ :=
  Real.sqrt (((p.1 ^ 2 + p.2.1 ^ 2 + p.2.2 ^ 2 : ℚ) : ℝ))

/-- `dists = [np.linalg.norm(lm[i]) for i in tip_ids]`. -/
noncomputable def tipDists (lm : List T3) : List ℝ :=
  tip_ids.map (fun i => normT3 ((normalizeLm lm).getD i (0, 0, 0)))

/-- `vec60.tolist() + dists`: the full 65-element feature vector. -/
noncomputable def vec65 (lm : List T3) : List ℝ :=
  (vec60 lm).map (fun q : ℚ => (q : ℝ)) ++ tipDists lm

/-- Result of the extraction: a feature vector, or a failure tag
(`"no_hand"`, …). -/
inductive ExtractResult where
  | ok (v : List ℝ)
  | err (msg : String)

/-- The landmark-dependent tail of `one_image_to_vector`: absent
landmarks (`not lm_res.multi_hand_landmarks`) give `"no_hand"`,
otherwise the pose is normalized into the 65-element vector.  (The
earlier file-system failure tags `"class_nothing"` / `"corrupt_image"`
concern the image path, not the pose, and are outside this model.) -/
noncomputable def one_image_to_vector (landmarks : Option (List T3)) :
    ExtractResult :=
  match landmarks with
  | none => ExtractResult.err "no_hand"
  | some lm => ExtractResult.ok (vec65 lm)

/-! ### FeatureNormalizer under IEEE non-finite inputs (`W` model)

The same pipeline with coordinates in `Option ℚ`: `none` stands for a
non-finite IEEE value (NaN), which is absorbing for every arithmetic
operation the pipeline performs, exactly as NaN is in numpy float32
arithmetic.  The Python code performs no finiteness check, so `none`
simply flows through. -/

/-- A coordinate that is either a finite value or non-finite (`none`). -/
abbrev WVal := Option ℚ

/-- NaN-absorbing addition. -/
def wadd : WVal → WVal → WVal
  | some x, some y => some (x + y)
  | _, _ => none

/-- NaN-absorbing subtraction. -/
def wsub : WVal → WVal → WVal
  | some x, some y => some (x - y)
  | _, _ => none

/-- NaN-absorbing multiplication. -/
def wmul : WVal → WVal → WVal
  | some x, some y => some (x * y)
  | _, _ => none

/-- Division; a zero divisor gives a non-finite result, and non-finite
operands propagate. -/
def wdiv : WVal → WVal → WVal
  | some x, some y => if y = 0 then none else some (x / y)
  | _, _ => none

/-- NaN-absorbing maximum (as `np.max` over data containing NaN). -/
def wmax : WVal → WVal → WVal
  | some x, some y => some (max x y)
  | _, _ => none

/-- NaN-absorbing minimum. -/
def wmin : WVal → WVal → WVal
  | some x, some y => some (min x y)
  | _, _ => none

/-- Square root: NaN propagates, finite values go to `ℝ`. -/
noncomputable def wsqrt : WVal → Option ℝ
  | none => none
  | some q => some (Real.sqrt (q : ℝ))

/-- A landmark point with possibly non-finite coordinates. -/
abbrev WT3 := WVal × WVal × WVal

/-- Componentwise subtraction of possibly non-finite points. -/
def subW (p q : WT3) : WT3 :=
  (wsub p.1 q.1, wsub p.2.1 q.2.1, wsub p.2.2 q.2.2)

/-- `lm -= lm[0]` on possibly non-finite landmarks. -/
def centerWristW (lm : List WT3) : List WT3 :=
  lm.map (fun p => subW p lm.headI)

/-- `np.max` of one axis, with NaN absorption. -/
def listMaxW (l : List WVal) : WVal := l.foldl wmax l.headI

/-- `np.min` of one axis, with NaN absorption. -/
def listMinW (l : List WVal) : WVal := l.foldl wmin l.headI

/-- `np.ptp` of one axis, with NaN absorption. -/
def ptpW (l : List WVal) : WVal := wsub (listMaxW l) (listMinW l)

/-- The largest per-axis peak-to-peak range, with NaN absorption. -/
def maxPtpW (lm : List WT3) : WVal :=
  wmax (ptpW (lm.map (fun p => p.1)))
    (wmax (ptpW (lm.map (fun p => p.2.1))) (ptpW (lm.map (fun p => p.2.2))))

/-- `scale = ... or 1.0`: in Python only a *finite zero* is falsy; NaN
and infinities are truthy, so they are kept as the scale. -/
def scaleW (lm : List WT3) : WVal :=
  let m := maxPtpW (centerWristW lm)
  if m = some 0 then some 1 else m

/-- `lm /= scale` on possibly non-finite landmarks. -/
def normalizeLmW (lm : List WT3) : List WT3 :=
  let s := scaleW lm
  (centerWristW lm).map (fun p => (wdiv p.1 s, wdiv p.2.1 s, wdiv p.2.2 s))

/-- `.flatten()` on possibly non-finite landmarks. -/
def flat3W (l : List WT3) : List WVal :=
  l.flatMap (fun p => [p.1, p.2.1, p.2.2])

/-- `lm[1:].flatten()` on possibly non-finite landmarks. -/
def vec60W (lm : List WT3) : List WVal :=
  flat3W ((normalizeLmW lm).drop 1)

/-- `np.linalg.norm` of a possibly non-finite point. -/
noncomputable def normT3W (p : WT3) : Option ℝ :=
  wsqrt (wadd (wadd (wmul p.1 p.1) (wmul p.2.1 p.2.1)) (wmul p.2.2 p.2.2))

/-- The five fingertip norms, with NaN absorption. -/
noncomputable def tipDistsW (lm : List WT3) : List (Option ℝ) :=
  tip_ids.map (fun i => normT3W ((normalizeLmW lm).getD i (none, none, none)))

/-- The 65-element vector, entries `none` when non-finite. -/
noncomputable def vec65W (lm : List WT3) : List (Option ℝ) :=
  (vec60W lm).map (fun w => w.map (fun q : ℚ => (q : ℝ))) ++ tipDistsW lm

/-- Result of the extraction in the non-finite-aware model. -/
inductive ExtractResultW where
  | ok (v : List (Option ℝ))
  | err (msg : String)

/-- `one_image_to_vector` in the non-finite-aware model: the source has
no finiteness check, so a present pose is always normalized, whatever
its coordinates. -/
noncomputable def one_image_to_vectorW (landmarks : Option (List WT3)) :
    ExtractResultW :=
  match landmarks with
  | none => ExtractResultW.err "no_hand"
  | some lm => ExtractResultW.ok (vec65W lm)

/-! ### The client session state machine

`onResults`, the `setInterval` tick and `sendPayload` from the client,
as a step function over explicit session state.  A classification
request is modelled by its payload: the tick appends it to
`outstanding` when it dispatches, and a `resolve` event (the fetch
promise settling, successfully or not) removes it.  The source updates
`lastSentLandmarks` only in the success continuation of `sendPayload`,
i.e. at resolution, never at dispatch. -/

/-- The mutable globals of the client session. -/
structure ClientState where
  lastFrameLandmarks : Option (List ℚ)
  lastSentLandmarks : Option (List ℚ)
  acc : AccState
  typed : List Char
  outstanding : List (List ℚ)
  deriving Repr

/-- Session events: a MediaPipe result callback, a scheduler tick, or
the resolution of a dispatched request (`some (prediction, confidence)`
for a parsed response, `none` for a network/parse failure). -/
inductive Ev where
  | frame (pose : Option (List T3))
  | tick
  | resolve (payload : List ℚ) (resp : Option (String × ℚ)) (now : ℤ)

/-- Initial session state: `null` landmarks, `null` lastSent, `null`
lastAccepted, `lastAcceptTime = 0`, empty text, nothing in flight. -/
def initState : ClientState :=
  ⟨none, none, ⟨none, 0⟩, [], []⟩

/-- One step of the client session. -/
def step (s : ClientState) (e : Ev) : ClientState :=
  match e with
  | Ev.frame pose => { s with lastFrameLandmarks := pose.map flat3 }
  | Ev.tick =>
      match s.lastFrameLandmarks with
      | none => s
      | some v =>
          if submitB THRESHOLD (some v) s.lastSentLandmarks then
            { s with outstanding := s.outstanding ++ [v] }
          else s
  | Ev.resolve payload resp now =>
      let s' := { s with outstanding := s.outstanding.erase payload }
      match resp with
      | none => s'
      | some (prediction, confidence) =>
          let r := handlePrediction prediction confidence s.acc now
          { s' with
            acc := r.2
            typed :=
              match r.1 with
              | Decision.commit l => appendLetter s.typed l
              | _ => s.typed
            lastSentLandmarks := some payload }

/-- Run a sequence of events from a state. -/
def run (s : ClientState) (evs : List Ev) : ClientState :=
  evs.foldl step s

/-- The payload of the most recent successful resolution in an event
list, if any, starting from a given previous value. -/
def lastOkFrom (v : Option (List ℚ)) (evs : List Ev) : Option (List ℚ) :=
  evs.foldl
    (fun acc e =>
      match e with
      | Ev.resolve p (some _) _ => some p
      | _ => acc)
    v

/-! ### Helper lemmas -/

theorem sumSqDiff_nonneg (a b : List ℚ) : 0 ≤ sumSqDiff a b := by
  apply List.sum_nonneg
  intro x hx
  simp only [List.mem_map] at hx
  obtain ⟨p, _, rfl⟩ := hx
  positivity

theorem sumSqDiff_self (a : List ℚ) : sumSqDiff a a = 0 := by
  induction a with
  | nil => rfl
  | cons x t ih =>
      simp only [sumSqDiff, List.zip_cons_cons, List.map_cons, List.sum_cons] at ih ⊢
      simp [ih]

/-- The decidable squared comparison used by the embedded tick agrees
with the source comparison `l2(a, b) > θ` for every `θ ≥ 0`. -/
theorem submitB_eq_true_iff (θ : ℚ) (hθ : 0 ≤ θ) (a b : Option (List ℚ)) :
    submitB θ a b = true ↔ l2 a b > ((θ : ℝ) : EReal) := by
  match a, b with
  | none, none => simp [submitB, l2, EReal.coe_lt_top]
  | none, some b => simp [submitB, l2, EReal.coe_lt_top]
  | some a, none => simp [submitB, l2, EReal.coe_lt_top]
  | some a, some b =>
      by_cases hlen : a.length = b.length
      · simp only [submitB, l2, if_pos hlen, decide_eq_true_eq, gt_iff_lt,
          EReal.coe_lt_coe_iff]
        rw [Real.lt_sqrt (by positivity)]
        rcases Nat.eq_zero_or_pos a.length with h0 | hpos
        · rcases List.length_eq_zero.mp h0 with rfl
          rcases List.length_eq_zero.mp (hlen.symm.trans h0) with rfl
          norm_num [sumSqDiff]
          positivity
        · have hn : (0 : ℝ) < (a.length : ℝ) := by exact_mod_cast hpos
          rw [lt_div_iff₀ hn]
          constructor
          · intro h
            have := (Rat.cast_lt (K := ℝ)).mpr h
            push_cast at this ⊢
            nlinarith [this]
          · intro h
            have : ((θ * θ * a.length : ℚ) : ℝ) < ((sumSqDiff a b : ℚ) : ℝ) := by
              push_cast
              nlinarith [h]
            exact_mod_cast this
      · simp [submitB, l2, if_neg hlen, EReal.coe_lt_top]

theorem l2_absent (v : List ℚ) : l2 (some v) none = ⊤ := rfl

theorem l2_self (v : List ℚ) : l2 (some v) (some v) = ((0 : ℝ) : EReal) := by
  simp [l2, sumSqDiff_self]

/-- On equal-length vectors `l2` is the Euclidean distance divided by
the square root of the vector length. -/
theorem l2_eq_euclid_div (a b : List ℚ) (h : a.length = b.length) :
    l2 (some a) (some b) =
      ((Real.sqrt ((sumSqDiff a b : ℚ) : ℝ) / Real.sqrt ((a.length : ℕ) : ℝ) : ℝ) :
        EReal) := by
  have hS : (0 : ℝ) ≤ ((sumSqDiff a b : ℚ) : ℝ) := by
    exact_mod_cast sumSqDiff_nonneg a b
  simp only [l2, if_pos h]
  rw [Real.sqrt_div hS]

theorem flat3_length (l : List T3) : (flat3 l).length = 3 * l.length := by
  induction l with
  | nil => rfl
  | cons p t ih =>
      simp only [flat3, List.flatMap_cons] at ih ⊢
      simp [ih]
      ring

theorem flat3_getD (l : List T3) (j : ℕ) (h : j < l.length) :
    (flat3 l).getD (3 * j) 0 = (l.getD j (0, 0, 0)).1 ∧
      (flat3 l).getD (3 * j + 1) 0 = (l.getD j (0, 0, 0)).2.1 ∧
      (flat3 l).getD (3 * j + 2) 0 = (l.getD j (0, 0, 0)).2.2 := by
  induction l generalizing j with
  | nil => simp at h
  | cons p t ih =>
      cases j with
      | zero => simp [flat3]
      | succ j =>
          have h' : j < t.length := by simpa using Nat.lt_of_succ_lt_succ h
          obtain ⟨ih1, ih2, ih3⟩ := ih j h'
          have e0 : 3 * (j + 1) = 3 * j + 1 + 1 + 1 := by ring
          have e1 : 3 * (j + 1) + 1 = 3 * j + 1 + 1 + 1 + 1 := by ring
          have e2 : 3 * (j + 1) + 2 = 3 * j + 2 + 1 + 1 + 1 := by ring
          refine ⟨?_, ?_, ?_⟩
          · rw [e0]
            simpa [flat3, List.flatMap_cons] using ih1
          · rw [e1]
            simpa [flat3, List.flatMap_cons] using ih2
          · rw [e2]
            simpa [flat3, List.flatMap_cons] using ih3

theorem centerWrist_length (lm : List T3) :
    (centerWrist lm).length = lm.length := by
  simp [centerWrist]

theorem normalizeLm_length (lm : List T3) :
    (normalizeLm lm).length = lm.length := by
  simp [normalizeLm, centerWrist]

theorem vec60_length' (lm : List T3) :
    (vec60 lm).length = 3 * (lm.length - 1) := by
  simp [vec60, flat3_length, normalizeLm_length]

theorem foldl_max_self (q : ℚ) (n : ℕ) :
    (List.replicate n q).foldl max q = q := by
  induction n with
  | zero => rfl
  | succ n ih => simp [List.replicate_succ, ih]

theorem foldl_min_self (q : ℚ) (n : ℕ) :
    (List.replicate n q).foldl min q = q := by
  induction n with
  | zero => rfl
  | succ n ih => simp [List.replicate_succ, ih]

theorem ptp_replicate (n : ℕ) (q : ℚ) :
    ptp (List.replicate (n + 1) q) = 0 := by
  simp [ptp, listMax, listMin, List.replicate_succ, foldl_max_self,
    foldl_min_self]

theorem subT_self (p : T3) : subT p p = (0 : T3) := by
  simp [subT]

theorem centerWrist_replicate (n : ℕ) (p : T3) :
    centerWrist (List.replicate (n + 1) p) = List.replicate (n + 1) (0 : T3) := by
  simp [centerWrist, List.replicate_succ, subT_self]

theorem maxPtp_replicate_zero (n : ℕ) :
    maxPtp (List.replicate (n + 1) (0 : T3)) = 0 := by
  have h1 : (List.replicate (n + 1) (0 : T3)).map (fun p => p.1) =
      List.replicate (n + 1) (0 : ℚ) := by simp [List.map_replicate]
  have h2 : (List.replicate (n + 1) (0 : T3)).map (fun p => p.2.1) =
      List.replicate (n + 1) (0 : ℚ) := by simp [List.map_replicate]
  have h3 : (List.replicate (n + 1) (0 : T3)).map (fun p => p.2.2) =
      List.replicate (n + 1) (0 : ℚ) := by simp [List.map_replicate]
  simp [maxPtp, h1, h2, h3, ptp_replicate]

theorem scaleOf_replicate (n : ℕ) (p : T3) :
    scaleOf (List.replicate (n + 1) p) = 1 := by
  simp [scaleOf, centerWrist_replicate, maxPtp_replicate_zero]

theorem normalizeLm_replicate (n : ℕ) (p : T3) :
    normalizeLm (List.replicate (n + 1) p) =
      List.replicate (n + 1) (0 : T3) := by
  simp [normalizeLm, scaleOf_replicate, centerWrist_replicate,
    List.map_replicate, Prod.ext_iff]

theorem flat3_replicate_zero (n : ℕ) :
    flat3 (List.replicate n (0 : T3)) = List.replicate (3 * n) (0 : ℚ) := by
  induction n with
  | zero => rfl
  | succ n ih =>
      rw [show 3 * (n + 1) = 3 * n + 1 + 1 + 1 by ring, List.replicate_succ,
        List.replicate_succ, List.replicate_succ, List.replicate_succ, ← ih]
      rfl

theorem normT3_zero : normT3 (0 : T3) = 0 := by
  simp [normT3]

/-- `lastSentLandmarks` after one step, as a function of the event. -/
theorem step_lastSent (s : ClientState) (e : Ev) :
    (step s e).lastSentLandmarks =
      match e with
      | Ev.resolve p (some _) _ => some p
      | _ => s.lastSentLandmarks := by
  cases e with
  | frame pose => rfl
  | tick =>
      cases h : s.lastFrameLandmarks with
      | none => simp [step, h]
      | some v =>
          by_cases hs : submitB THRESHOLD (some v) s.lastSentLandmarks = true
          · simp [step, h, hs]
          · simp [step, h, hs]
  | resolve p resp now =>
      cases resp with
      | none => rfl
      | some r => rfl

/-- Over any event sequence, `lastSentLandmarks` is exactly the payload
of the most recent successful resolution (or the starting value when no
request has resolved successfully). -/
theorem run_lastSent (evs : List Ev) (s : ClientState) :
    (run s evs).lastSentLandmarks = lastOkFrom s.lastSentLandmarks evs := by
  induction evs generalizing s with
  | nil => rfl
  | cons e t ih =>
      cases e with
      | frame pose => exact ih _
      | tick =>
          have hstep : (step s Ev.tick).lastSentLandmarks = s.lastSentLandmarks :=
            step_lastSent s Ev.tick
          have h := ih (step s Ev.tick)
          rw [hstep] at h
          exact h
      | resolve p resp now =>
          cases resp with
          | none => exact ih _
          | some r =>
              obtain ⟨pred, conf⟩ := r
              exact ih _

theorem getD_replicate_zero (n i : ℕ) :
    (List.replicate n (0 : T3)).getD i ((0 : ℚ), (0 : ℚ), (0 : ℚ)) = (0 : T3) := by
  induction n generalizing i with
  | zero => rfl
  | succ n ih =>
      cases i with
      | zero => rfl
      | succ i => simp [List.replicate_succ, ih i]

/-! ## Claims -/

/-- C3: the tick's submission test is true exactly when the
length-normalized L2 distance (Euclidean distance divided by the square
root of the vector length) is strictly greater than `THRESHOLD`; an
absent `lastSent` yields infinite distance, hence always submits;
identical vectors yield distance 0, hence never submit for any
non-negative threshold; a distance exactly equal to `THRESHOLD` does not
submit. -/
theorem c3_stability_gate :
    (∀ a b : Option (List ℚ),
        submitB THRESHOLD a b = true ↔
          l2 a b > (((THRESHOLD : ℚ) : ℝ) : EReal)) ∧
    (∀ a b : List ℚ, a.length = b.length →
        l2 (some a) (some b) =
          ((Real.sqrt ((sumSqDiff a b : ℚ) : ℝ) /
              Real.sqrt ((a.length : ℕ) : ℝ) : ℝ) : EReal)) ∧
    (∀ v : List ℚ, l2 (some v) none = ⊤ ∧
        submitB THRESHOLD (some v) none = true) ∧
    (∀ (θ : ℚ) (v : List ℚ), 0 ≤ θ →
        l2 (some v) (some v) = ((0 : ℝ) : EReal) ∧
          submitB θ (some v) (some v) = false) ∧
    (∀ a b : List ℚ,
        l2 (some a) (some b) = (((THRESHOLD : ℚ) : ℝ) : EReal) →
          submitB THRESHOLD (some a) (some b) = false) := by
  have hθ : (0 : ℚ) ≤ THRESHOLD := by norm_num [THRESHOLD]
  refine ⟨fun a b => submitB_eq_true_iff THRESHOLD hθ a b,
    fun a b h => l2_eq_euclid_div a b h,
    fun v => ⟨l2_absent v, rfl⟩,
    fun θ v h0 => ⟨l2_self v, ?_⟩,
    fun a b hb => ?_⟩
  · have hns : ¬ θ * θ * (v.length : ℚ) < sumSqDiff v v := by
      rw [sumSqDiff_self]
      exact not_lt.mpr (mul_nonneg (mul_self_nonneg θ) (by positivity))
    simp [submitB, hns]
  · rw [← Bool.not_eq_true, submitB_eq_true_iff THRESHOLD hθ, hb]
    exact lt_irrefl _

/-- Witness for C3: a concrete pair of one-element vectors at exact
distance `THRESHOLD` is not submitted, and identical vectors are not
submitted. -/
theorem c3_stability_gate_witness :
    submitB THRESHOLD (some [(1 : ℚ) / 100]) (some [(0 : ℚ)]) = false ∧
      submitB THRESHOLD (some [(1 : ℚ)]) (some [(1 : ℚ)]) = false := by
  have hd : l2 (some [(1 : ℚ) / 100]) (some [(0 : ℚ)]) =
      (((THRESHOLD : ℚ) : ℝ) : EReal) := by
    rw [l2_eq_euclid_div [(1 : ℚ) / 100] [(0 : ℚ)] rfl]
    have hS : ((sumSqDiff [(1 : ℚ) / 100] [(0 : ℚ)] : ℚ) : ℝ) =
        (1 / 100 : ℝ) ^ 2 := by
      norm_num [sumSqDiff]
    rw [hS, Real.sqrt_sq (by norm_num)]
    refine congrArg (fun r : ℝ => (r : EReal)) ?_
    norm_num [THRESHOLD]
  exact ⟨c3_stability_gate.2.2.2.2 _ _ hd,
    (c3_stability_gate.2.2.2.1 THRESHOLD [(1 : ℚ)] (by norm_num [THRESHOLD])).2⟩

/-- C10: vectors of unequal length are at distance `Infinity`, so a
dimensionality mismatch between the current vector and `lastSent`
always submits rather than erroring or suppressing the tick. -/
theorem c10_dim_mismatch (a b : List ℚ) (h : a.length ≠ b.length) :
    l2 (some a) (some b) = ⊤ ∧
      submitB THRESHOLD (some a) (some b) = true := by
  constructor
  · simp [l2, if_neg h]
  · simp [submitB, if_neg h]

/-- Witness for C10: a 1-element current vector against a 2-element
`lastSent`. -/
theorem c10_dim_mismatch_witness :
    ([(0 : ℚ)].length ≠ [(0 : ℚ), 0].length) ∧
      l2 (some [(0 : ℚ)]) (some [(0 : ℚ), 0]) = ⊤ ∧
      submitB THRESHOLD (some [(0 : ℚ)]) (some [(0 : ℚ), 0]) = true :=
  ⟨by decide, c10_dim_mismatch [(0 : ℚ)] [(0 : ℚ), 0] (by decide)⟩

/-- Counterexample to C2 as stated: the label `"0"` is not one of the
28 alphabet symbols, yet `handlePrediction` commits it at confidence 1
(the code never tests alphabet membership). -/
theorem c2_unknown_label_counterexample :
    handlePrediction "0" 1 ⟨none, 0⟩ 0 =
        (Decision.commit "0", ⟨some "0", 0⟩) ∧
      "0" ∉ alphabet := by
  constructor
  · have hc : CONF_THRESHOLD ≤ (1 : ℚ) ∧ ("0" : String) ≠ "" := by
      refine ⟨by norm_num [CONF_THRESHOLD], by decide⟩
    unfold handlePrediction
    rw [if_pos hc, if_pos (Or.inl (Option.some_ne_none "0"))]
  · decide

/-- C2 (amended): the decision follows the rules in order, except that
rule 1 tests only `confidence < CONF_THRESHOLD` or an empty (falsy)
label — there is no alphabet-membership test.  Confidence exactly 0.75
is not rejected as low; the duplicate window is boundary-inclusive. -/
theorem c2_acceptance_rules (prediction : String) (confidence : ℚ)
    (st : AccState) (now : ℤ) :
    ((handlePrediction prediction confidence st now).1 =
        Decision.rejectLowConfidence ↔
          confidence < CONF_THRESHOLD ∨ prediction = "") ∧
    ((handlePrediction prediction confidence st now).1 =
        Decision.rejectDuplicate ↔
          CONF_THRESHOLD ≤ confidence ∧ prediction ≠ "" ∧
            some prediction = st.lastAccepted ∧
            now - st.lastAcceptTime ≤ DEBOUNCE_MS) ∧
    ((handlePrediction prediction confidence st now).1 =
        Decision.commit prediction ↔
          CONF_THRESHOLD ≤ confidence ∧ prediction ≠ "" ∧
            (some prediction ≠ st.lastAccepted ∨
              now - st.lastAcceptTime > DEBOUNCE_MS)) := by
  unfold handlePrediction
  by_cases h1 : CONF_THRESHOLD ≤ confidence ∧ prediction ≠ ""
  · by_cases h2 : some prediction ≠ st.lastAccepted ∨
        now - st.lastAcceptTime > DEBOUNCE_MS
    · simp only [if_pos h1, if_pos h2]
      refine ⟨?_, ?_, ?_⟩
      · simp only [reduceCtorEq, false_iff]
        push_neg
        exact ⟨h1.1, h1.2⟩
      · simp only [reduceCtorEq, false_iff]
        intro h
        rcases h2 with h2 | h2
        · exact h2 h.2.2.1
        · exact absurd h.2.2.2 (not_le.mpr h2)
      · simp only [Decision.commit.injEq, true_iff]
        exact ⟨h1.1, h1.2, h2⟩
    · simp only [if_pos h1, if_neg h2]
      push_neg at h2
      refine ⟨?_, ?_, ?_⟩
      · simp only [reduceCtorEq, false_iff]
        push_neg
        exact ⟨h1.1, h1.2⟩
      · simp only [true_iff]
        exact ⟨h1.1, h1.2, h2.1, h2.2⟩
      · simp only [reduceCtorEq, false_iff]
        intro h
        rcases h.2.2 with h3 | h3
        · exact h3 h2.1
        · exact absurd h3 (not_lt.mpr h2.2)
  · simp only [if_neg h1]
    rw [Classical.not_and_iff_or_not_not] at h1
    refine ⟨?_, ?_, ?_⟩
    · simp only [true_iff]
      rcases h1 with h1 | h1
      · exact Or.inl (not_le.mp h1)
      · exact Or.inr (not_not.mp h1)
    · simp only [reduceCtorEq, false_iff]
      intro h
      rcases h1 with h1 | h1
      · exact h1 h.1
      · exact h1 h.2.1
    · simp only [reduceCtorEq, false_iff]
      intro h
      rcases h1 with h1 | h1
      · exact h1 h.1
      · exact h1 h.2.1

/-- C6: the acceptance state is written exactly once per Commit (label
and timestamp), and is left untouched by every Reject decision and by a
failed classification (a `resolve` with no parsed response changes
neither the acceptance state nor the text nor `lastSent`). -/
theorem c6_state_mutation (prediction : String) (confidence : ℚ)
    (st : AccState) (now : ℤ) (s : ClientState) (payload : List ℚ)
    (n2 : ℤ) :
    ((handlePrediction prediction confidence st now).2 =
        match (handlePrediction prediction confidence st now).1 with
        | Decision.commit l => ⟨some l, now⟩
        | _ => st) ∧
    (step s (Ev.resolve payload none n2)).acc = s.acc ∧
    (step s (Ev.resolve payload none n2)).typed = s.typed ∧
    (step s (Ev.resolve payload none n2)).lastSentLandmarks =
      s.lastSentLandmarks := by
  refine ⟨?_, rfl, rfl, rfl⟩
  unfold handlePrediction
  by_cases h1 : CONF_THRESHOLD ≤ confidence ∧ prediction ≠ ""
  · by_cases h2 : some prediction ≠ st.lastAccepted ∨
        now - st.lastAcceptTime > DEBOUNCE_MS
    · simp [if_pos h1, if_pos h2]
    · simp [if_pos h1, if_neg h2]
  · simp [if_neg h1]

/-- C7: `lastSentLandmarks` is never written by the stability test or at
dispatch; a failed resolution leaves it unchanged; a successful
resolution sets it to the resolved payload; over any event sequence run
from the initial state it equals the payload of the most recent
successful resolution. -/
theorem c7_last_sent (s : ClientState) (payload : List ℚ) (now : ℤ)
    (pose : Option (List T3)) (pred : String) (conf : ℚ)
    (evs : List Ev) :
    (step s Ev.tick).lastSentLandmarks = s.lastSentLandmarks ∧
    (step s (Ev.frame pose)).lastSentLandmarks = s.lastSentLandmarks ∧
    (step s (Ev.resolve payload none now)).lastSentLandmarks =
      s.lastSentLandmarks ∧
    (step s (Ev.resolve payload (some (pred, conf)) now)).lastSentLandmarks =
      some payload ∧
    (run initState evs).lastSentLandmarks = lastOkFrom none evs :=
  ⟨step_lastSent s Ev.tick, rfl, rfl, rfl, run_lastSent evs initState⟩

/-- A degenerate but valid 21-point hand pose (all landmarks at the
origin), used to drive the client model on concrete traces. -/
def pose0 : List T3 := List.replicate 21 ((0 : ℚ), (0 : ℚ), (0 : ℚ))

/-- Counterexample to C1 as stated: dispatch at one tick, then tick
again before any resolution — the second tick is not skipped, and two
requests are outstanding simultaneously. -/
theorem c1_two_outstanding_counterexample :
    (run initState [Ev.frame (some pose0), Ev.tick, Ev.tick]).outstanding.length = 2 := by
  decide

/-- C1 (amended): the client keeps no in-flight flag.  A tick's dispatch
decision reads only the current landmarks and `lastSentLandmarks`; a
tick whose distance test passes dispatches even while previously
dispatched requests are still unresolved, so several requests can be
outstanding at once. -/
theorem c1_no_inflight_gate (s : ClientState) (v : List ℚ)
    (hf : s.lastFrameLandmarks = some v)
    (hs : submitB THRESHOLD (some v) s.lastSentLandmarks = true) :
    (step s Ev.tick).outstanding = s.outstanding ++ [v] := by
  simp [step, hf, hs]

/-- Witness for C1 (amended): a state with one unresolved request still
dispatches on the next passing tick. -/
theorem c1_no_inflight_gate_witness :
    (step ⟨some [(0 : ℚ)], none, ⟨none, 0⟩, [], [[(0 : ℚ)]]⟩ Ev.tick).outstanding =
      [[(0 : ℚ)]] ++ [[(0 : ℚ)]] :=
  c1_no_inflight_gate ⟨some [(0 : ℚ)], none, ⟨none, 0⟩, [], [[(0 : ℚ)]]⟩
    [(0 : ℚ)] rfl rfl

/-- A 21-point pose whose second landmark has a non-finite x
coordinate; every other coordinate is 0. -/
def nanPose : List WT3 :=
  (some (0 : ℚ), some (0 : ℚ), some (0 : ℚ)) ::
    ((none : WVal), some (0 : ℚ), some (0 : ℚ)) ::
      List.replicate 19 (some (0 : ℚ), some (0 : ℚ), some (0 : ℚ))

/-- Counterexample to C5 as stated: on a pose with one non-finite
coordinate the extraction does not return Invalid — it returns a
65-element vector every entry of which is non-finite (NaN), because the
code never checks finiteness. -/
theorem c5_nan_counterexample :
    one_image_to_vectorW (some nanPose) =
      ExtractResultW.ok (List.replicate 65 (none : Option ℝ)) := by
  rfl

/-- C5 (amended): an absent pose yields Invalid (`"no_hand"`) and is
never used downstream — the frame callback stores `none` and a tick
with no stored landmarks does nothing at all; but the code performs no
finiteness check, so a pose containing a non-finite coordinate is
normalized into a vector carrying NaN (already visible in the 60
flattened coordinates) instead of being rejected. -/
theorem c5_invalid_pose (s : ClientState)
    (hs : s.lastFrameLandmarks = none) :
    one_image_to_vector none = ExtractResult.err "no_hand" ∧
    one_image_to_vectorW none = ExtractResultW.err "no_hand" ∧
    (step s (Ev.frame none)).lastFrameLandmarks = none ∧
    step s Ev.tick = s ∧
    (none : WVal) ∈ vec60W nanPose := by
  refine ⟨rfl, rfl, rfl, ?_, by decide⟩
  simp [step, hs]

/-- Witness for C5 (amended): the initial state has no landmarks and a
tick leaves it entirely unchanged. -/
theorem c5_invalid_pose_witness : step initState Ev.tick = initState :=
  (c5_invalid_pose initState rfl).2.2.2.1

theorem getD_drop1 {α : Type} (l : List α) (j : ℕ) (d : α) :
    (l.drop 1).getD j d = l.getD (j + 1) d := by
  cases l with
  | nil => rfl
  | cons a t => rfl

/-- C8: on a degenerate pose whose 21 points coincide, the maximal
per-axis peak-to-peak range is 0, the scale falls back to 1 (no division
by zero), and the output is the finite all-zero vector (60-D and
65-D). -/
theorem c8_degenerate_pose (p : T3) :
    maxPtp (centerWrist (List.replicate 21 p)) = 0 ∧
    scaleOf (List.replicate 21 p) = 1 ∧
    vec60 (List.replicate 21 p) = List.replicate 60 (0 : ℚ) ∧
    vec65 (List.replicate 21 p) = List.replicate 65 (0 : ℝ) := by
  have hmax : maxPtp (centerWrist (List.replicate 21 p)) = 0 := by
    rw [show (21 : ℕ) = 20 + 1 from rfl, centerWrist_replicate]
    exact maxPtp_replicate_zero 20
  have hnorm : normalizeLm (List.replicate 21 p) =
      List.replicate 21 (0 : T3) := normalizeLm_replicate 20 p
  have h60 : vec60 (List.replicate 21 p) = List.replicate 60 (0 : ℚ) := by
    rw [vec60, hnorm,
      show List.replicate 21 (0 : T3) = (0 : T3) :: List.replicate 20 (0 : T3)
        from rfl]
    exact flat3_replicate_zero 20
  refine ⟨hmax, scaleOf_replicate 20 p, h60, ?_⟩
  have htip : tipDists (List.replicate 21 p) = List.replicate 5 (0 : ℝ) := by
    rw [tipDists, hnorm]
    simp [tip_ids, getD_replicate_zero, normT3_zero, List.replicate]
  rw [vec65, h60, htip, show (65 : ℕ) = 60 + 5 from rfl, List.replicate_add]
  simp [List.map_replicate]

/-- C9: on the text buffer, deleting removes exactly the last character
and is a no-op on the empty buffer; the `space` label appends exactly
one space; any other letter label appends its characters — all three
operations are total functions that always succeed. -/
theorem c9_text_buffer (buf : List Char) (c : Char) (letter : String)
    (h1 : letter ≠ "space") (h2 : letter ≠ "del") :
    appendLetter (buf ++ [c]) "del" = buf ∧
    appendLetter ([] : List Char) "del" = [] ∧
    appendLetter buf "space" = buf ++ [' '] ∧
    appendLetter buf letter = buf ++ letter.toList := by
  refine ⟨?_, by simp [appendLetter], rfl, ?_⟩
  · simp [appendLetter]
  · simp [appendLetter, h1, h2]

/-- Witness for C9: appending the plain letter `"A"` to the empty
buffer. -/
theorem c9_text_buffer_witness :
    ("A" : String) ≠ "space" ∧ ("A" : String) ≠ "del" ∧
      appendLetter ([] : List Char) "A" = [] ++ "A".toList :=
  ⟨by decide, by decide,
    (c9_text_buffer [] 'x' "A" (by decide) (by decide)).2.2.2⟩

/-- C4: for a 21-point pose the normalizer is a pure function computing
a 60-element flattened vector (65 with the appended fingertip norms);
the centred wrist is the zero point and is dropped, so element
`3 j + axis` of the 60-vector is the `axis` coordinate of normalized
point `j + 1` — the wrist (point 0) never contributes an output
element; the 65-vector is the 60-vector followed by the five
post-normalization fingertip norms. -/
theorem c4_normalizer (lm : List T3) (h : lm.length = 21) :
    (vec60 lm).length = 60 ∧
    (vec65 lm).length = 65 ∧
    (normalizeLm lm).getD 0 ((0 : ℚ), (0 : ℚ), (0 : ℚ)) = (0 : T3) ∧
    (∀ j, j < 20 →
        (vec60 lm).getD (3 * j) 0 =
          ((normalizeLm lm).getD (j + 1) ((0 : ℚ), (0 : ℚ), (0 : ℚ))).1 ∧
        (vec60 lm).getD (3 * j + 1) 0 =
          ((normalizeLm lm).getD (j + 1) ((0 : ℚ), (0 : ℚ), (0 : ℚ))).2.1 ∧
        (vec60 lm).getD (3 * j + 2) 0 =
          ((normalizeLm lm).getD (j + 1) ((0 : ℚ), (0 : ℚ), (0 : ℚ))).2.2) ∧
    (vec65 lm).take 60 = (vec60 lm).map (fun q : ℚ => (q : ℝ)) ∧
    (vec65 lm).drop 60 = tipDists lm := by
  have h60 : (vec60 lm).length = 60 := by
    rw [vec60_length', h]
  have hm : ((vec60 lm).map (fun q : ℚ => (q : ℝ))).length = 60 := by
    simp [h60]
  refine ⟨h60, ?_, ?_, ?_, ?_, ?_⟩
  · simp [vec65, tipDists, tip_ids, h60]
  · obtain ⟨p, rest, rfl⟩ : ∃ p rest, lm = p :: rest := by
      cases lm with
      | nil => simp at h
      | cons a t => exact ⟨a, t, rfl⟩
    simp [normalizeLm, centerWrist, subT_self, Prod.ext_iff]
  · intro j hj
    have hlen : j < ((normalizeLm lm).drop 1).length := by
      simp [normalizeLm_length, h]
      omega
    have hf := flat3_getD ((normalizeLm lm).drop 1) j hlen
    rw [vec60]
    rw [getD_drop1 (normalizeLm lm) j ((0 : ℚ), (0 : ℚ), (0 : ℚ))] at hf
    exact hf
  · rw [vec65, ← hm, List.take_left]
  · rw [vec65, ← hm, List.drop_left]

/-- A concrete non-degenerate 21-point pose. -/
def testPose : List T3 := (List.range 21).map (fun i : ℕ => ((i : ℚ), 0, 0))

/-- Witness for C4 at a concrete pose. -/
theorem c4_normalizer_witness :
    testPose.length = 21 ∧ (vec60 testPose).length = 60 ∧
      (vec60 testPose).getD 0 0 =
        ((normalizeLm testPose).getD 1 ((0 : ℚ), (0 : ℚ), (0 : ℚ))).1 := by
  have h : testPose.length = 21 := by simp [testPose]
  exact ⟨h, (c4_normalizer testPose h).1,
    ((c4_normalizer testPose h).2.2.2.1 0 (by norm_num)).1⟩

end SignLang
